import Mathlib

/-!
Shallow embedding of the `mcp-edd` Easy Digital Downloads MCP server
(`src/edd-client.ts` and the tool handlers of `src/index.ts`).

JSON response bodies are modelled by the inductive `Json`; JavaScript
`undefined` is modelled by `Option` (`none` = undefined) wherever a value
may be absent.  URL query strings are modelled at the `URLSearchParams`
level: an ordered association list of (name, value) pairs, with the
`set` operation replacing an existing entry in place.
-/

/-- JSON values, as produced by `response.json()`.  Object fields keep
insertion order (JSON.parse yields unique keys, later duplicates win,
so lookups below may search from the front). -/
inductive Json where
  | null
  | bool (b : Bool)
  | num (q : Rat)
  | str (s : String)
  | arr (items : List Json)
  | obj (fields : List (String × Json))

namespace Json

/-- First-match field lookup in an object field list. -/
def lookupField : List (String × Json) → String → Option Json
  | [], _ => none
  | (k', v) :: rest, k => if k' = k then some v else lookupField rest k

/-- JavaScript property read `body[k]`: `none` models `undefined`
(also for reads on non-objects). -/
def getField : Json → String → Option Json
  | .obj fields, k => lookupField fields k
  | _, _ => none

/-- JavaScript truthiness of a defined JSON value. -/
def truthy : Json → Bool
  | .null => false
  | .bool b => b
  | .num q => q != 0
  | .str s => s != ""
  | .arr _ => true
  | .obj _ => true

mutual

/-- JavaScript string interpolation of a value, as in a template
literal.  In the source this is only applied to the `error` field, which
is typed `string`; the remaining cases follow JS `String(v)` (number
formatting of non-integral values is approximated and unused). -/
def display : Json → String
  | .null => "null"
  | .bool b => if b then "true" else "false"
  | .num q => if q.den = 1 then toString q.num else toString q
  | .str s => s
  | .arr items => displayList items
  | .obj _ => "[object Object]"

def displayList : List Json → String
  | [] => ""
  | [x] => display x
  | x :: rest => display x ++ "," ++ displayList rest

end

end Json

/-- A caller-supplied query parameter value: `string | number | undefined`. -/
inductive PVal where
  | str (s : String)
  | num (n : Int)
  | undef
deriving DecidableEq

/-- `String(value)` coercion used by the URL-building loops; `none` for
an `undefined` value, which the loops skip. -/
def PVal.toQueryString : PVal → Option String
  | .str s => some s
  | .num n => some (toString n)
  | .undef => none

/-- Lift an optional numeric option field (e.g. `options.number`) to a
parameter value. -/
def PVal.ofOptInt : Option Int → PVal
  | none => .undef
  | some n => .num n

/-- Lift an optional string option field to a parameter value. -/
def PVal.ofOptStr : Option String → PVal
  | none => .undef
  | some s => .str s

/-- `URLSearchParams.set name value`: replace the value of an existing
entry in place, else append.  (The real `set` also deletes later
duplicates; construction below only ever uses `set`, so no duplicates
arise and in-place replacement is exact.) -/
def setParam : List (String × String) → String → String → List (String × String)
  | [], k, v => [(k, v)]
  | (k', v') :: rest, k, v =>
    if k' = k then (k, v) :: rest else (k', v') :: setParam rest k v

/-- `URLSearchParams.get name`. -/
def getQ : List (String × String) → String → Option String
  | [], _ => none
  | (k', v) :: rest, k => if k' = k then some v else getQ rest k

/-- The parameter loop shared by `buildUrl` and `buildPublicUrl`:
`for (const [key, value] of Object.entries(params)) if (value !== undefined)
url.searchParams.set(key, String(value))`. -/
def addParams : List (String × String) → List (String × PVal) → List (String × String)
  | q, [] => q
  | q, p :: rest =>
    addParams (match p.2.toQueryString with
      | none => q
      | some v => setParam q p.1 v) rest

/-- Client configuration (`EDDClientConfig`). -/
structure EDDClientConfig where
  apiUrl : String
  apiKey : String
  apiToken : String

/-- A constructed URL: the resolved endpoint plus its search params.
`new URL(endpoint, apiUrl)` starts with an empty query. -/
structure Url where
  base : String
  endpoint : String
  query : List (String × String)

namespace EDDClient

/-- `buildUrl`: authenticated URL — sets `key` and `token` from the
configuration, then adds the caller parameters. -/
def buildUrl (cfg : EDDClientConfig) (endpoint : String)
    (params : List (String × PVal)) : Url :=
  { base := cfg.apiUrl, endpoint := endpoint,
    query := addParams (setParam (setParam [] "key" cfg.apiKey) "token" cfg.apiToken) params }

/-- `buildPublicUrl`: no authentication parameters. -/
def buildPublicUrl (cfg : EDDClientConfig) (endpoint : String)
    (params : List (String × PVal)) : Url :=
  { base := cfg.apiUrl, endpoint := endpoint, query := addParams [] params }

end EDDClient

/-- An HTTP response as observed by `request`: status, status text and
the JSON-decoded body. -/
structure HttpResponse where
  status : Nat
  statusText : String
  body : Json

/-- `response.ok`: status in the inclusive range 200–299. -/
def HttpResponse.isOk (r : HttpResponse) : Bool :=
  200 ≤ r.status && r.status ≤ 299

/-- Outcome of one `fetch` call: either the promise rejects (network
failure, also covering a JSON-decode failure, both caught by the same
`catch`) or a response arrives. -/
inductive FetchOutcome where
  | netError (msg : String)
  | response (r : HttpResponse)

/-- A transport for one URL: the outcome of the n-th attempt (1-based),
modelling the sequence of `fetch` results a mock would produce. -/
abbrev Transport := Url → Nat → FetchOutcome

/-- Result of the body of one loop iteration of `request`: either the
decoded data is returned, or an error (with its message) is thrown and
caught by the surrounding `catch`. -/
inductive AttemptOutcome where
  | success (data : Json)
  | failure (msg : String)

/-- `true` iff the attempt threw. -/
def AttemptOutcome.isFailure : AttemptOutcome → Bool
  | .success _ => false
  | .failure _ => true

/-- One iteration of the `request` loop: throw `HTTP {status}: {text}`
on a non-2xx status, throw `EDD API Error: {error}` when the decoded
body carries a truthy `error` field, otherwise return the body. -/
def attemptOutcome : FetchOutcome → AttemptOutcome
  | .netError m => .failure m
  | .response r =>
    if r.isOk = false then
      .failure ("HTTP " ++ toString r.status ++ ": " ++ r.statusText)
    else
      match r.body.getField "error" with
      | some e =>
        if e.truthy = true then .failure ("EDD API Error: " ++ e.display)
        else .success r.body
      | none => .success r.body

/-- Observable behaviour of one `request` call: how many times the
transport was invoked, the backoff delays slept (in seconds, in order),
and the settled result. -/
structure RequestTrace where
  attempts : Nat
  delays : List Nat
  result : Except String Json

/-- The retry loop of `request`, unrolled on the remaining number of
iterations (`fuel` = `retries - attempt + 1`): on failure record the
message as `lastError`, sleep `2 ^ (attempt - 1)` seconds when further
attempts remain, and when the loop ends rethrow the last error (or the
generic message when no attempt ever ran). -/
def requestAux (t : Nat → FetchOutcome) (retries : Nat) :
    Nat → Nat → Option String → RequestTrace
  | 0, _, lastError =>
    { attempts := 0, delays := [],
      result := .error (lastError.getD "Request failed after retries") }
  | fuel + 1, attempt, _ =>
    match attemptOutcome (t attempt) with
    | .success data => { attempts := 1, delays := [], result := .ok data }
    | .failure e =>
      let rest := requestAux t retries fuel (attempt + 1) (some e)
      { attempts := rest.attempts + 1,
        delays := (if attempt < retries then [2 ^ (attempt - 1)] else []) ++ rest.delays,
        result := rest.result }

/-- `request(url, retries)` for a fixed URL's transport: run the loop
`for (attempt = 1; attempt <= retries; attempt++)`. -/
def request (t : Nat → FetchOutcome) (retries : Nat := 3) : RequestTrace :=
  requestAux t retries retries 1 none

/-- The delays produced by `attempts` consecutive failing attempts
starting at attempt number `a`, each `2 ^ (attempt - 1)` seconds. -/
def backoffDelays : Nat → Nat → List Nat
  | _, 0 => []
  | a, n + 1 => 2 ^ (a - 1) :: backoffDelays (a + 1) n

/-- Result of one `async` endpoint method: the promise resolves with a
JS value (`none` = `undefined`), rejects with a thrown `Error` message,
or rejects with a `TypeError` from an element access on `undefined`. -/
inductive MethodResult where
  | ok (v : Option Json)
  | error (msg : String)
  | typeError

/-- JS `x[0]` on a defined value: array head, object property `"0"`,
first character of a string; `undefined` otherwise. -/
def jsIndex0 : Json → Option Json
  | .arr [] => none
  | .arr (x :: _) => some x
  | .obj fields => Json.lookupField fields "0"
  | .str s => if s = "" then none else some (.str (String.singleton s.front))
  | _ => none

/-- JS `x?.[0]`: `undefined` when `x` is `undefined` or `null`, else
`x[0]`. -/
def jsOptIndex0 : Option Json → Option Json
  | none => none
  | some .null => none
  | some j => jsIndex0 j

/-- JS `x || null` applied to a possibly-undefined value. -/
def jsOrNull : Option Json → Json
  | none => .null
  | some j => if j.truthy then j else .null

/-- JS `x || []` applied to a possibly-undefined value (the guard used
by the list methods). -/
def jsOrEmptyArr : Option Json → Json
  | none => .arr []
  | some j => if j.truthy then j else .arr []

/-- The `type` discriminator `'sales' | 'earnings'`. -/
inductive StatType where
  | sales
  | earnings
deriving DecidableEq

/-- The query-string value of a `StatType`. -/
def StatType.param : StatType → String
  | .sales => "sales"
  | .earnings => "earnings"

namespace EDDClient

/-- URL used by `listProducts(options)`. -/
def listProductsUrl (cfg : EDDClientConfig) (number product : Option Int) : Url :=
  buildPublicUrl cfg "products/" [("number", .ofOptInt number), ("product", .ofOptInt product)]

/-- `listProducts`: returns `response.products` unguarded (may be
`undefined` when the envelope field is absent). -/
def listProducts (cfg : EDDClientConfig) (t : Transport)
    (number product : Option Int) : MethodResult :=
  match (request (t (listProductsUrl cfg number product)) 3).result with
  | .error e => .error e
  | .ok body => .ok (body.getField "products")

/-- `getProduct`: `listProducts({ product: productId })`, then
`products[0] || null` — the element access throws a `TypeError` when
`listProducts` resolved with `undefined`. -/
def getProduct (cfg : EDDClientConfig) (t : Transport) (productId : Int) : MethodResult :=
  match listProducts cfg t none (some productId) with
  | .error e => .error e
  | .typeError => .typeError
  | .ok none => .typeError
  | .ok (some products) => .ok (some (jsOrNull (jsIndex0 products)))

/-- URL used by `listSales(options)`. -/
def listSalesUrl (cfg : EDDClientConfig) (number page : Option Int)
    (email startdate enddate : Option String) : Url :=
  buildUrl cfg "sales/"
    [("number", .ofOptInt number), ("page", .ofOptInt page),
     ("email", .ofOptStr email), ("startdate", .ofOptStr startdate),
     ("enddate", .ofOptStr enddate)]

/-- `listSales`: `response.sales || []`. -/
def listSales (cfg : EDDClientConfig) (t : Transport) (number page : Option Int)
    (email startdate enddate : Option String) : MethodResult :=
  match (request (t (listSalesUrl cfg number page email startdate enddate)) 3).result with
  | .error e => .error e
  | .ok body => .ok (some (jsOrEmptyArr (body.getField "sales")))

/-- URL used by `getSaleById`. -/
def getSaleByIdUrl (cfg : EDDClientConfig) (saleId : Int) : Url :=
  buildUrl cfg "sales/" [("id", .num saleId)]

/-- `getSaleById`: `response.sales?.[0] || null`. -/
def getSaleById (cfg : EDDClientConfig) (t : Transport) (saleId : Int) : MethodResult :=
  match (request (t (getSaleByIdUrl cfg saleId)) 3).result with
  | .error e => .error e
  | .ok body => .ok (some (jsOrNull (jsOptIndex0 (body.getField "sales"))))

/-- URL used by `getSaleByKey` — note the caller parameter is named
`key`, the same name as the public-key auth parameter. -/
def getSaleByKeyUrl (cfg : EDDClientConfig) (purchaseKey : String) : Url :=
  buildUrl cfg "sales/" [("key", .str purchaseKey)]

/-- `getSaleByKey`: `response.sales?.[0] || null`. -/
def getSaleByKey (cfg : EDDClientConfig) (t : Transport) (purchaseKey : String) : MethodResult :=
  match (request (t (getSaleByKeyUrl cfg purchaseKey)) 3).result with
  | .error e => .error e
  | .ok body => .ok (some (jsOrNull (jsOptIndex0 (body.getField "sales"))))

/-- URL used by `listCustomers(options)`. -/
def listCustomersUrl (cfg : EDDClientConfig) (number page : Option Int) : Url :=
  buildUrl cfg "customers/" [("number", .ofOptInt number), ("page", .ofOptInt page)]

/-- `listCustomers`: `response.customers || []`. -/
def listCustomers (cfg : EDDClientConfig) (t : Transport)
    (number page : Option Int) : MethodResult :=
  match (request (t (listCustomersUrl cfg number page)) 3).result with
  | .error e => .error e
  | .ok body => .ok (some (jsOrEmptyArr (body.getField "customers")))

/-- URL used by `getCustomerById`. -/
def getCustomerByIdUrl (cfg : EDDClientConfig) (customerId : Int) : Url :=
  buildUrl cfg "customers/" [("customer", .num customerId)]

/-- `getCustomerById`: `response.customers?.[0] || null`. -/
def getCustomerById (cfg : EDDClientConfig) (t : Transport) (customerId : Int) : MethodResult :=
  match (request (t (getCustomerByIdUrl cfg customerId)) 3).result with
  | .error e => .error e
  | .ok body => .ok (some (jsOrNull (jsOptIndex0 (body.getField "customers"))))

/-- URL used by `getCustomerByEmail`. -/
def getCustomerByEmailUrl (cfg : EDDClientConfig) (email : String) : Url :=
  buildUrl cfg "customers/" [("email", .str email)]

/-- `getCustomerByEmail`: `response.customers?.[0] || null`. -/
def getCustomerByEmail (cfg : EDDClientConfig) (t : Transport) (email : String) : MethodResult :=
  match (request (t (getCustomerByEmailUrl cfg email)) 3).result with
  | .error e => .error e
  | .ok body => .ok (some (jsOrNull (jsOptIndex0 (body.getField "customers"))))

/-- URL used by `getStats`. -/
def getStatsUrl (cfg : EDDClientConfig) (ty : StatType) : Url :=
  buildUrl cfg "stats/" [("type", .str ty.param)]

/-- The shape normalization inside `getStats`: return `response.stats`
when the key is present and truthy, else build `{ [type]: response[type] }`
(a missing `response[type]` is an `undefined`-valued property, rendered
here as `null`). -/
def statsNormalize (ty : StatType) (body : Json) : Json :=
  match body.getField "stats" with
  | some s => if s.truthy then s else .obj [(ty.param, (body.getField ty.param).getD .null)]
  | none => .obj [(ty.param, (body.getField ty.param).getD .null)]

/-- `getStats`: handles both the `stats`-wrapper and the flat response
format. -/
def getStats (cfg : EDDClientConfig) (t : Transport) (ty : StatType) : MethodResult :=
  match (request (t (getStatsUrl cfg ty)) 3).result with
  | .error e => .error e
  | .ok body => .ok (some (statsNormalize ty body))

/-- URL used by `getStatsByDateRange`. -/
def getStatsByDateRangeUrl (cfg : EDDClientConfig) (ty : StatType)
    (startDate endDate : String) : Url :=
  buildUrl cfg "stats/"
    [("type", .str ty.param), ("date", .str "range"),
     ("startdate", .str startDate), ("enddate", .str endDate)]

/-- The destructuring
`const { request_speed: _speed, totals: _totals, ...dateData } = response`:
drop exactly those two keys, keep every other field in order.  (Response
bodies here are JSON objects; the rest-spread of a non-object own no
enumerable properties and yields `{}`.) -/
def dateRangeStrip : Json → Json
  | .obj fields => .obj (fields.filter fun p => p.1 != "request_speed" && p.1 != "totals")
  | _ => .obj []

/-- `getStatsByDateRange`: request with `date=range` and strip the two
non-date keys. -/
def getStatsByDateRange (cfg : EDDClientConfig) (t : Transport) (ty : StatType)
    (startDate endDate : String) : MethodResult :=
  match (request (t (getStatsByDateRangeUrl cfg ty startDate endDate)) 3).result with
  | .error e => .error e
  | .ok body => .ok (some (dateRangeStrip body))

/-- URL used by `listDiscounts(options)`. -/
def listDiscountsUrl (cfg : EDDClientConfig) (number : Option Int) : Url :=
  buildUrl cfg "discounts/" [("number", .ofOptInt number)]

/-- `listDiscounts`: `response.discounts || []`. -/
def listDiscounts (cfg : EDDClientConfig) (t : Transport) (number : Option Int) : MethodResult :=
  match (request (t (listDiscountsUrl cfg number)) 3).result with
  | .error e => .error e
  | .ok body => .ok (some (jsOrEmptyArr (body.getField "discounts")))

/-- URL used by `getDiscount`. -/
def getDiscountUrl (cfg : EDDClientConfig) (discountId : Int) : Url :=
  buildUrl cfg "discounts/" [("discount", .num discountId)]

/-- `getDiscount`: `response.discounts?.[0] || null`. -/
def getDiscount (cfg : EDDClientConfig) (t : Transport) (discountId : Int) : MethodResult :=
  match (request (t (getDiscountUrl cfg discountId)) 3).result with
  | .error e => .error e
  | .ok body => .ok (some (jsOrNull (jsOptIndex0 (body.getField "discounts"))))

/-- URL used by `getDownloadLogs(options)`. -/
def getDownloadLogsUrl (cfg : EDDClientConfig)
    (number product customer : Option Int) : Url :=
  buildUrl cfg "file-download-logs/"
    [("number", .ofOptInt number), ("product", .ofOptInt product),
     ("customer", .ofOptInt customer)]

/-- `getDownloadLogs`: `response.download_logs || []`. -/
def getDownloadLogs (cfg : EDDClientConfig) (t : Transport)
    (number product customer : Option Int) : MethodResult :=
  match (request (t (getDownloadLogsUrl cfg number product customer)) 3).result with
  | .error e => .error e
  | .ok body => .ok (some (jsOrEmptyArr (body.getField "download_logs")))

end EDDClient

/-- Falsiness of an optional numeric tool argument: `!x` is true for an
absent argument and for `0`. -/
def numFalsy : Option Int → Bool
  | none => true
  | some n => n == 0

/-- Falsiness of an optional string tool argument: `!x` is true for an
absent argument and for the empty string. -/
def strFalsy : Option String → Bool
  | none => true
  | some s => s == ""

/-- Truthiness of a possibly-undefined JS value (`if (!sale)` checks). -/
def jsValTruthy : Option Json → Bool
  | none => false
  | some j => j.truthy

/-- The text content a tool handler returns: either a fixed message or
`JSON.stringify(value, null, 2)` of a looked-up record. -/
inductive ToolContent where
  | plain (s : String)
  | stringified (j : Json)

/-- Result of one tool handler invocation: a content payload, a rejected
promise (the client error propagates), or a runtime `TypeError`. -/
inductive ToolResult where
  | content (c : ToolContent)
  | threw (msg : String)
  | crashed

/-- The `edd_get_sale` handler: reject missing parameters with a text
message, dispatch on `saleId ? getSaleById : getSaleByKey`, and report
`Sale not found` for a `null` lookup. -/
def eddGetSaleTool (cfg : EDDClientConfig) (t : Transport)
    (saleId : Option Int) (purchaseKey : Option String) : ToolResult :=
  if numFalsy saleId && strFalsy purchaseKey then
    .content (.plain "Error: Either saleId or purchaseKey is required")
  else
    match (if numFalsy saleId = false then
             EDDClient.getSaleById cfg t (saleId.getD 0)
           else
             EDDClient.getSaleByKey cfg t (purchaseKey.getD "")) with
    | .error e => .threw e
    | .typeError => .crashed
    | .ok v =>
      if jsValTruthy v then .content (.stringified (v.getD .null))
      else .content (.plain "Sale not found")

/-- The `edd_get_customer` handler: reject missing parameters with a
text message, dispatch on `customerId ? getCustomerById :
getCustomerByEmail`, and report `Customer not found` for a `null`
lookup. -/
def eddGetCustomerTool (cfg : EDDClientConfig) (t : Transport)
    (customerId : Option Int) (email : Option String) : ToolResult :=
  if numFalsy customerId && strFalsy email then
    .content (.plain "Error: Either customerId or email is required")
  else
    match (if numFalsy customerId = false then
             EDDClient.getCustomerById cfg t (customerId.getD 0)
           else
             EDDClient.getCustomerByEmail cfg t (email.getD "")) with
    | .error e => .threw e
    | .typeError => .crashed
    | .ok v =>
      if jsValTruthy v then .content (.stringified (v.getD .null))
      else .content (.plain "Customer not found")

/-- The caller-supplied parameter entries whose value is defined. -/
def definedParams (params : List (String × PVal)) : List (String × PVal) :=
  params.filter fun p => p.2 != PVal.undef

/-! ### Lemmas about query-string construction -/

theorem getQ_setParam_self (q : List (String × String)) (k v : String) :
    getQ (setParam q k v) k = some v := by
  induction q with
  | nil => simp [setParam, getQ]
  | cons hd tl ih =>
    obtain ⟨k', v'⟩ := hd
    by_cases h : k' = k
    · simp [setParam, getQ, h]
    · simp [setParam, getQ, h, ih]

theorem getQ_setParam_ne (q : List (String × String)) (k k' v : String)
    (h : k' ≠ k) : getQ (setParam q k' v) k = getQ q k := by
  induction q with
  | nil => simp [setParam, getQ, h]
  | cons hd tl ih =>
    obtain ⟨a, b⟩ := hd
    by_cases ha : a = k'
    · subst ha
      simp [setParam, getQ, h, ih]
    · simp only [setParam, if_neg ha]
      by_cases hak : a = k
      · simp [getQ, hak]
      · simp [getQ, hak, ih]

theorem PVal.toQueryString_eq_none {v : PVal} :
    v.toQueryString = none ↔ v = .undef := by
  cases v <;> simp [PVal.toQueryString]

theorem getQ_addParams_not_mem (params : List (String × PVal)) (q : List (String × String))
    (k : String) (h : ∀ p ∈ params, p.2 ≠ PVal.undef → p.1 ≠ k) :
    getQ (addParams q params) k = getQ q k := by
  induction params generalizing q with
  | nil => rfl
  | cons p rest ih =>
    simp only [addParams]
    cases hv : p.2.toQueryString with
    | none =>
      exact ih q fun p' hp' => h p' (List.mem_cons_of_mem _ hp')
    | some s =>
      have hdef : p.2 ≠ PVal.undef := by
        intro hu
        rw [hu] at hv
        exact Option.noConfusion hv
      have hk : p.1 ≠ k := h p (List.mem_cons_self _ _) hdef
      rw [ih _ fun p' hp' => h p' (List.mem_cons_of_mem _ hp'),
        getQ_setParam_ne q k p.1 s hk]

theorem getQ_addParams_mem (params : List (String × PVal)) (q : List (String × String))
    (k : String) (v : PVal) (s : String) (hmem : (k, v) ∈ params)
    (hs : v.toQueryString = some s) (hnd : (params.map Prod.fst).Nodup) :
    getQ (addParams q params) k = some s := by
  induction params generalizing q with
  | nil => cases hmem
  | cons p rest ih =>
    rw [List.map_cons, List.nodup_cons] at hnd
    rcases List.mem_cons.mp hmem with heq | hrest
    · have hk1 : p.1 = k := by rw [← heq]
      have hv2 : p.2 = v := by rw [← heq]
      have hps : p.2.toQueryString = some s := by rw [hv2]; exact hs
      have hnotin : ∀ p' ∈ rest, p'.2 ≠ PVal.undef → p'.1 ≠ k := by
        intro p' hp' _ hkk
        apply hnd.1
        rw [hk1, ← hkk]
        exact List.mem_map_of_mem Prod.fst hp'
      simp only [addParams, hps]
      rw [getQ_addParams_not_mem rest _ k hnotin, hk1]
      exact getQ_setParam_self q k s
    · have hk : p.1 ≠ k := by
        intro hpk
        exact hnd.1 (hpk ▸ List.mem_map_of_mem Prod.fst hrest)
      simp only [addParams]
      cases hv : p.2.toQueryString with
      | none => exact ih _ hrest hnd.2
      | some s' => exact ih _ hrest hnd.2

theorem addParams_definedParams (params : List (String × PVal)) (q : List (String × String)) :
    addParams q params = addParams q (definedParams params) := by
  induction params generalizing q with
  | nil => rfl
  | cons p rest ih =>
    cases hv : p.2.toQueryString with
    | none =>
      have hp2 : p.2 = PVal.undef := PVal.toQueryString_eq_none.mp hv
      have h1 : addParams q (p :: rest) = addParams q rest := by
        simp [addParams, hv]
      have h2 : definedParams (p :: rest) = definedParams rest := by
        simp [definedParams, List.filter_cons, hp2]
      rw [h1, h2]
      exact ih q
    | some s =>
      have hp2 : (p.2 != PVal.undef) = true := by
        cases h : p.2 <;> simp_all [PVal.toQueryString]
      have h1 : addParams q (p :: rest) = addParams (setParam q p.1 s) rest := by
        simp [addParams, hv]
      have h2 : definedParams (p :: rest) = p :: definedParams rest := by
        simp [definedParams, List.filter_cons, hp2]
      have h3 : addParams q (p :: definedParams rest) =
          addParams (setParam q p.1 s) (definedParams rest) := by
        simp [addParams, hv]
      rw [h1, h2, h3]
      exact ih (setParam q p.1 s)

theorem authQuery_eq (a b : String) :
    setParam (setParam [] "key" a) "token" b = [("key", a), ("token", b)] := by
  simp [setParam]

/-! ### C1 — authentication parameters in constructed URLs -/

/-- C1 (counterexample): for the configuration
`{apiUrl := "https://example.com/edd-api/", apiKey := "test-key",
apiToken := "test-token"}`, the URL built by `getSaleByKey "abc123"`
does **not** carry the configured public key as its `key` query
parameter — the caller-supplied purchase key overwrites it, because
`buildUrl` adds caller parameters with `searchParams.set` after the
auth parameters. -/
theorem getSaleByKey_auth_overwritten_cx :
    ¬ getQ (EDDClient.getSaleByKeyUrl
        ⟨"https://example.com/edd-api/", "test-key", "test-token"⟩ "abc123").query "key" =
      some "test-key" := by decide

/-- C1 (amended): for every authenticated endpoint call whose
defined caller parameters avoid the auth names `key` and `token`, the
built URL carries both the configured public key and token query
parameters; when a caller parameter named `key` is supplied with a
defined value — as `getSaleByKey` does — it overwrites the configured
public key, so the URL carries the caller's value there (the `token`
parameter is unaffected); products-endpoint URLs (`listProducts`,
and hence `getProduct`) carry neither auth parameter. -/
theorem authParams_amended :
    (∀ (cfg : EDDClientConfig) (endpoint : String) (params : List (String × PVal)),
      (∀ p ∈ params, p.2 ≠ PVal.undef → p.1 ≠ "key" ∧ p.1 ≠ "token") →
      getQ (EDDClient.buildUrl cfg endpoint params).query "key" = some cfg.apiKey ∧
      getQ (EDDClient.buildUrl cfg endpoint params).query "token" = some cfg.apiToken) ∧
    (∀ (cfg : EDDClientConfig) (purchaseKey : String),
      getQ (EDDClient.getSaleByKeyUrl cfg purchaseKey).query "key" = some purchaseKey ∧
      getQ (EDDClient.getSaleByKeyUrl cfg purchaseKey).query "token" = some cfg.apiToken) ∧
    (∀ (cfg : EDDClientConfig) (number product : Option Int),
      getQ (EDDClient.listProductsUrl cfg number product).query "key" = none ∧
      getQ (EDDClient.listProductsUrl cfg number product).query "token" = none) := by
  refine ⟨?_, ?_, ?_⟩
  · intro cfg endpoint params h
    unfold EDDClient.buildUrl
    rw [authQuery_eq]
    constructor
    · rw [getQ_addParams_not_mem params _ "key" (fun p hp hd => (h p hp hd).1)]
      simp [getQ]
    · rw [getQ_addParams_not_mem params _ "token" (fun p hp hd => (h p hp hd).2)]
      simp [getQ]
  · intro cfg purchaseKey
    unfold EDDClient.getSaleByKeyUrl EDDClient.buildUrl
    rw [authQuery_eq]
    have hadd : addParams [("key", cfg.apiKey), ("token", cfg.apiToken)]
        [("key", PVal.str purchaseKey)] =
        setParam [("key", cfg.apiKey), ("token", cfg.apiToken)] "key" purchaseKey := by
      simp [addParams, PVal.toQueryString]
    rw [hadd]
    refine ⟨getQ_setParam_self _ "key" purchaseKey, ?_⟩
    rw [getQ_setParam_ne _ "token" "key" purchaseKey (by decide)]
    simp [getQ]
  · intro cfg number product
    unfold EDDClient.listProductsUrl EDDClient.buildPublicUrl
    have h : ∀ p ∈ [("number", PVal.ofOptInt number), ("product", PVal.ofOptInt product)],
        p.2 ≠ PVal.undef → p.1 ≠ "key" ∧ p.1 ≠ "token" := by
      intro p hp _
      rcases List.mem_cons.mp hp with h1 | h2
      · rw [h1]; exact ⟨by simp, by simp⟩
      · rcases List.mem_cons.mp h2 with h3 | h4
        · rw [h3]; exact ⟨by simp, by simp⟩
        · cases h4
    exact ⟨by rw [getQ_addParams_not_mem _ _ "key" (fun p hp hd => (h p hp hd).1)]; rfl,
           by rw [getQ_addParams_not_mem _ _ "token" (fun p hp hd => (h p hp hd).2)]; rfl⟩

/-- C1 (witness): concrete instances of the amended statement — a
collision-free authenticated call keeps `key=test-key`, `getSaleByKey`
sets `key=abc123`, and a products URL has no `key` parameter. -/
theorem authParams_amended_witness :
    getQ (EDDClient.buildUrl ⟨"https://example.com/edd-api/", "test-key", "test-token"⟩
      "customers/" [("number", PVal.num 5)]).query "key" = some "test-key" ∧
    getQ (EDDClient.getSaleByKeyUrl
      ⟨"https://example.com/edd-api/", "test-key", "test-token"⟩ "abc123").query "key" =
      some "abc123" ∧
    getQ (EDDClient.listProductsUrl
      ⟨"https://example.com/edd-api/", "test-key", "test-token"⟩ (some 3) none).query "key" =
      none :=
  ⟨(authParams_amended.1 _ "customers/" _ (by decide)).1,
   (authParams_amended.2.1 _ "abc123").1,
   (authParams_amended.2.2 _ (some 3) none).1⟩

/-! ### Lemmas about the retry loop -/

theorem requestAux_success (t : Nat → FetchOutcome) (retries fuel attempt : Nat)
    (lastError : Option String) (data : Json)
    (h : attemptOutcome (t attempt) = .success data) :
    requestAux t retries (fuel + 1) attempt lastError =
      { attempts := 1, delays := [], result := .ok data } := by
  rw [requestAux, h]

theorem requestAux_failure (t : Nat → FetchOutcome) (retries fuel attempt : Nat)
    (lastError : Option String) (e : String)
    (h : attemptOutcome (t attempt) = .failure e) :
    requestAux t retries (fuel + 1) attempt lastError =
      { attempts := (requestAux t retries fuel (attempt + 1) (some e)).attempts + 1,
        delays := (if attempt < retries then [2 ^ (attempt - 1)] else []) ++
          (requestAux t retries fuel (attempt + 1) (some e)).delays,
        result := (requestAux t retries fuel (attempt + 1) (some e)).result } := by
  rw [requestAux, h]

/-- Exhaustion: when every attempt in the remaining window fails, the
loop consumes all of them, sleeps between consecutive attempts only,
and rethrows the message of the final attempt. -/
theorem requestAux_exhaust (t : Nat → FetchOutcome) (retries : Nat) (e : String)
    (hlast : attemptOutcome (t retries) = .failure e) :
    ∀ (fuel attempt : Nat) (lastError : Option String), 1 ≤ fuel →
    attempt + fuel = retries + 1 →
    (∀ n, attempt ≤ n → n ≤ retries → (attemptOutcome (t n)).isFailure = true) →
    requestAux t retries fuel attempt lastError =
      { attempts := fuel, delays := backoffDelays attempt (fuel - 1),
        result := .error e } := by
  intro fuel
  induction fuel with
  | zero => intro attempt lastError h1; omega
  | succ f ih =>
    intro attempt lastError _ hsum hall
    have hle : attempt ≤ retries := by omega
    obtain ⟨m, hm⟩ : ∃ m, attemptOutcome (t attempt) = .failure m := by
      have := hall attempt le_rfl hle
      cases hout : attemptOutcome (t attempt) with
      | success d => rw [hout] at this; simp [AttemptOutcome.isFailure] at this
      | failure m => exact ⟨m, rfl⟩
    rw [requestAux_failure t retries f attempt lastError m hm]
    cases f with
    | zero =>
      have hat : attempt = retries := by omega
      have hme : m = e := by
        rw [hat] at hm
        rw [hm] at hlast
        cases hlast
        rfl
      rw [requestAux]
      have hnotlt : ¬ attempt < retries := by omega
      simp [hnotlt, hme, backoffDelays, Option.getD]
    | succ f' =>
      have hrest := ih (attempt + 1) (some m) (by omega) (by omega)
        (fun n hn1 hn2 => hall n (by omega) hn2)
      rw [hrest]
      have hlt : attempt < retries := by omega
      simp only [if_pos hlt]
      have hd1 : f' + 1 + 1 - 1 = f' + 1 := by omega
      have hd2 : f' + 1 - 1 = f' := by omega
      rw [hd1, hd2]
      rfl

/-- A run whose first attempt succeeds returns immediately. -/
theorem request_first_success (t : Nat → FetchOutcome) (retries : Nat) (data : Json)
    (hr : 1 ≤ retries) (h : attemptOutcome (t 1) = .success data) :
    request t retries = { attempts := 1, delays := [], result := .ok data } := by
  have hfuel : retries = (retries - 1) + 1 := by omega
  rw [request, hfuel]
  exact requestAux_success t ((retries - 1) + 1) (retries - 1) 1 none data h

/-- A 2xx response whose body has no truthy `error` field yields the
decoded body. -/
theorem attemptOutcome_success_of_clean (r : HttpResponse) (hok : r.isOk = true)
    (herr : ∀ e, r.body.getField "error" = some e → e.truthy = false) :
    attemptOutcome (.response r) = .success r.body := by
  rw [attemptOutcome, hok]
  simp only [Bool.true_eq_false, if_false]
  cases hf : r.body.getField "error" with
  | none => rfl
  | some e => simp [herr e hf]

/-! ### C8 — undefined parameters are omitted, defined ones appear -/

/-- C8: the parameter loops of `buildUrl` and `buildPublicUrl` skip
every entry with an undefined value: the built URL is the same as for
the defined-entries-only map; a key all of whose entries are undefined
does not occur in the query string at all (for `buildUrl`, provided it
is not one of the auth parameter names, which are set independently of
the caller map); and every defined entry appears string-coerced. -/
theorem undefined_params_omitted :
    (∀ (cfg : EDDClientConfig) (endpoint : String) (params : List (String × PVal)),
      EDDClient.buildUrl cfg endpoint params =
        EDDClient.buildUrl cfg endpoint (definedParams params) ∧
      EDDClient.buildPublicUrl cfg endpoint params =
        EDDClient.buildPublicUrl cfg endpoint (definedParams params)) ∧
    (∀ (cfg : EDDClientConfig) (endpoint : String) (params : List (String × PVal)) (k : String),
      (k, PVal.undef) ∈ params → (∀ v, (k, v) ∈ params → v = PVal.undef) →
      getQ (EDDClient.buildPublicUrl cfg endpoint params).query k = none) ∧
    (∀ (cfg : EDDClientConfig) (endpoint : String) (params : List (String × PVal)) (k : String),
      (k, PVal.undef) ∈ params → (∀ v, (k, v) ∈ params → v = PVal.undef) →
      k ≠ "key" → k ≠ "token" →
      getQ (EDDClient.buildUrl cfg endpoint params).query k = none) ∧
    (∀ (cfg : EDDClientConfig) (endpoint : String) (params : List (String × PVal))
      (k : String) (v : PVal) (s : String),
      (k, v) ∈ params → v.toQueryString = some s → (params.map Prod.fst).Nodup →
      getQ (EDDClient.buildPublicUrl cfg endpoint params).query k = some s ∧
      getQ (EDDClient.buildUrl cfg endpoint params).query k = some s) := by
  have hnot : ∀ (params : List (String × PVal)) (k : String),
      (∀ v, (k, v) ∈ params → v = PVal.undef) →
      ∀ p ∈ params, p.2 ≠ PVal.undef → p.1 ≠ k := by
    intro params k huniq p hp hd hpk
    have hmem : (k, p.2) ∈ params := by
      rw [show ((k, p.2) : String × PVal) = p from by rw [← hpk]]
      exact hp
    exact hd (huniq p.2 hmem)
  refine ⟨?_, ?_, ?_, ?_⟩
  · intro cfg endpoint params
    constructor
    · unfold EDDClient.buildUrl
      rw [addParams_definedParams]
    · unfold EDDClient.buildPublicUrl
      rw [addParams_definedParams]
  · intro cfg endpoint params k _ huniq
    unfold EDDClient.buildPublicUrl
    rw [getQ_addParams_not_mem params _ k (hnot params k huniq)]
    rfl
  · intro cfg endpoint params k _ huniq hkey htoken
    unfold EDDClient.buildUrl
    rw [authQuery_eq, getQ_addParams_not_mem params _ k (hnot params k huniq)]
    simp [getQ, Ne.symm hkey, Ne.symm htoken]
  · intro cfg endpoint params k v s hmem hs hnd
    exact ⟨getQ_addParams_mem params _ k v s hmem hs hnd,
           getQ_addParams_mem params _ k v s hmem hs hnd⟩

/-- C8 (witness): with the map `{number: undefined, product: 7}`, the
built public URL equals the one for `{product: 7}` alone, carries no
`number` parameter, and carries `product=7`; the authenticated URL also
carries `product=7`. -/
theorem undefined_params_omitted_witness :
    EDDClient.buildPublicUrl ⟨"https://example.com/edd-api/", "test-key", "test-token"⟩
      "products/" [("number", PVal.undef), ("product", PVal.num 7)] =
      EDDClient.buildPublicUrl ⟨"https://example.com/edd-api/", "test-key", "test-token"⟩
        "products/" (definedParams [("number", PVal.undef), ("product", PVal.num 7)]) ∧
    getQ (EDDClient.buildPublicUrl ⟨"https://example.com/edd-api/", "test-key", "test-token"⟩
      "products/" [("number", PVal.undef), ("product", PVal.num 7)]).query "number" = none ∧
    getQ (EDDClient.buildPublicUrl ⟨"https://example.com/edd-api/", "test-key", "test-token"⟩
      "products/" [("number", PVal.undef), ("product", PVal.num 7)]).query "product" =
      some "7" :=
  ⟨(undefined_params_omitted.1 _ "products/" _).2,
   undefined_params_omitted.2.1 _ "products/" _ "number" (by decide)
     (by intro v hv; simp at hv; exact hv),
   (undefined_params_omitted.2.2.2 _ "products/" _ "product" (PVal.num 7) "7"
     (by decide) (by decide) (by decide)).1⟩



/-! ### C2 — two failures then success -/

/-- C2: when the transport fails on the first two attempts and the third
attempt returns a 2xx response whose body carries no truthy `error`
field, `request` with the default budget of 3 resolves with the decoded
body of the third attempt, invokes the transport exactly 3 times, and
sleeps exactly twice between attempts — 1 second, then 2 seconds. -/
theorem retry_two_failures_then_success (t : Nat → FetchOutcome) (e1 e2 : String)
    (r : HttpResponse)
    (h1 : t 1 = .netError e1) (h2 : t 2 = .netError e2)
    (h3 : t 3 = .response r) (hok : r.isOk = true)
    (herr : ∀ e, r.body.getField "error" = some e → e.truthy = false) :
    request t 3 = { attempts := 3, delays := [1, 2], result := .ok r.body } := by
  have a1 : attemptOutcome (t 1) = .failure e1 := by rw [h1]; rfl
  have a2 : attemptOutcome (t 2) = .failure e2 := by rw [h2]; rfl
  have a3 : attemptOutcome (t 3) = .success r.body := by
    rw [h3]
    exact attemptOutcome_success_of_clean r hok herr
  have s1 : requestAux t 3 3 1 none =
      { attempts := (requestAux t 3 2 2 (some e1)).attempts + 1,
        delays := (if 1 < 3 then [2 ^ (1 - 1)] else []) ++
          (requestAux t 3 2 2 (some e1)).delays,
        result := (requestAux t 3 2 2 (some e1)).result } :=
    requestAux_failure t 3 2 1 none e1 a1
  have s2 : requestAux t 3 2 2 (some e1) =
      { attempts := (requestAux t 3 1 3 (some e2)).attempts + 1,
        delays := (if 2 < 3 then [2 ^ (2 - 1)] else []) ++
          (requestAux t 3 1 3 (some e2)).delays,
        result := (requestAux t 3 1 3 (some e2)).result } :=
    requestAux_failure t 3 1 2 (some e1) e2 a2
  have s3 : requestAux t 3 1 3 (some e2) =
      { attempts := 1, delays := [], result := .ok r.body } :=
    requestAux_success t 3 0 3 (some e2) r.body a3
  rw [request, s1, s2, s3]
  rfl

/-- C2 (witness): a transport that rejects twice with `Network error`
and then delivers `200 {"products": []}`. -/
theorem retry_two_failures_then_success_witness :
    request (fun n => if n ≤ 2 then .netError "Network error"
      else .response ⟨200, "OK", .obj [("products", .arr [])]⟩) 3 =
      { attempts := 3, delays := [1, 2], result := .ok (.obj [("products", .arr [])]) } :=
  retry_two_failures_then_success _ "Network error" "Network error"
    ⟨200, "OK", .obj [("products", .arr [])]⟩ rfl rfl rfl rfl
    (fun _ h => Option.noConfusion h)

/-! ### C3 — exhaustion on persistent HTTP errors -/

/-- C3: when every attempt yields a non-2xx response, `request` fails
after exactly the configured budget of attempts, and the raised error is
the one observed on the final attempt, its message carrying that
response's numeric status code and status text. -/
theorem retry_exhaust_http_error (t : Nat → FetchOutcome) (retries : Nat)
    (rlast : HttpResponse) (hr : 1 ≤ retries)
    (hall : ∀ n, 1 ≤ n → n ≤ retries → ∃ r, t n = .response r ∧ r.isOk = false)
    (hlast : t retries = .response rlast) :
    (request t retries).attempts = retries ∧
    (request t retries).result =
      .error ("HTTP " ++ toString rlast.status ++ ": " ++ rlast.statusText) := by
  have hlaste : attemptOutcome (t retries) =
      .failure ("HTTP " ++ toString rlast.status ++ ": " ++ rlast.statusText) := by
    obtain ⟨r, hteq, hbad⟩ := hall retries hr le_rfl
    have hre : r = rlast := by
      rw [hteq] at hlast
      cases hlast
      rfl
    subst hre
    rw [hteq]
    simp [attemptOutcome, hbad]
  have hfail : ∀ n, 1 ≤ n → n ≤ retries → (attemptOutcome (t n)).isFailure = true := by
    intro n hn1 hn2
    obtain ⟨r, hteq, hbad⟩ := hall n hn1 hn2
    rw [hteq]
    simp [attemptOutcome, hbad, AttemptOutcome.isFailure]
  have hexh := requestAux_exhaust t retries _ hlaste retries 1 none hr (by omega) hfail
  rw [request, hexh]
  exact ⟨rfl, rfl⟩

/-- C3 (witness): a transport that always answers `401 Unauthorized`
exhausts the default budget of 3 and raises `HTTP 401: Unauthorized`. -/
theorem retry_exhaust_http_error_witness :
    (request (fun _ => .response ⟨401, "Unauthorized", .obj []⟩) 3).attempts = 3 ∧
    (request (fun _ => .response ⟨401, "Unauthorized", .obj []⟩) 3).result =
      .error "HTTP 401: Unauthorized" :=
  retry_exhaust_http_error _ 3 ⟨401, "Unauthorized", .obj []⟩ (by decide)
    (fun _ _ _ => ⟨⟨401, "Unauthorized", .obj []⟩, rfl, rfl⟩) rfl

/-! ### C4 — exhaustion on application-level errors -/

/-- C4: when every attempt returns HTTP 200 with a body carrying a
non-empty string `error` field, `request` treats each response as a
failure exactly like a transport or HTTP failure — it consumes the whole
budget with the same backoff delays — and finally raises an error whose
message carries the server-supplied error string of the last attempt. -/
theorem retry_exhaust_api_error (t : Nat → FetchOutcome) (retries : Nat)
    (elast : String) (hr : 1 ≤ retries)
    (hall : ∀ n, 1 ≤ n → n ≤ retries → ∃ (r : HttpResponse) (e : String),
      t n = .response r ∧ r.isOk = true ∧
      r.body.getField "error" = some (.str e) ∧ e ≠ "")
    (hlast : ∃ r, t retries = .response r ∧ r.isOk = true ∧
      r.body.getField "error" = some (.str elast) ∧ elast ≠ "") :
    (request t retries).attempts = retries ∧
    (request t retries).delays = backoffDelays 1 (retries - 1) ∧
    (request t retries).result = .error ("EDD API Error: " ++ elast) := by
  obtain ⟨rl, htl, hokl, herl, hnel⟩ := hlast
  have hlaste : attemptOutcome (t retries) = .failure ("EDD API Error: " ++ elast) := by
    rw [htl]
    simp [attemptOutcome, hokl, herl, Json.truthy, Json.display, bne_iff_ne, hnel]
  have hfail : ∀ n, 1 ≤ n → n ≤ retries → (attemptOutcome (t n)).isFailure = true := by
    intro n hn1 hn2
    obtain ⟨r, e, hteq, hok, her, hne⟩ := hall n hn1 hn2
    rw [hteq]
    simp [attemptOutcome, hok, her, Json.truthy, AttemptOutcome.isFailure, bne_iff_ne, hne]
  have hexh := requestAux_exhaust t retries _ hlaste retries 1 none hr (by omega) hfail
  rw [request, hexh]
  exact ⟨rfl, rfl, rfl⟩

/-- C4 (witness): a transport that always answers
`200 {"error": "Invalid API key"}` exhausts the default budget of 3 with
delays 1s then 2s and raises `EDD API Error: Invalid API key`. -/
theorem retry_exhaust_api_error_witness :
    (request (fun _ => .response
      ⟨200, "OK", .obj [("error", .str "Invalid API key")]⟩) 3).attempts = 3 ∧
    (request (fun _ => .response
      ⟨200, "OK", .obj [("error", .str "Invalid API key")]⟩) 3).delays = [1, 2] ∧
    (request (fun _ => .response
      ⟨200, "OK", .obj [("error", .str "Invalid API key")]⟩) 3).result =
      .error "EDD API Error: Invalid API key" :=
  retry_exhaust_api_error _ 3 "Invalid API key" (by decide)
    (fun _ _ _ => ⟨⟨200, "OK", .obj [("error", .str "Invalid API key")]⟩,
      "Invalid API key", rfl, rfl, rfl, by decide⟩)
    ⟨⟨200, "OK", .obj [("error", .str "Invalid API key")]⟩, rfl, rfl, rfl, by decide⟩

/-! ### C5 / C10 — envelope unwrapping -/

/-- A transport whose first attempt delivers a 2xx response without an
`error` field settles `request` with that body. -/
theorem result_of_clean_response (t : Transport) (url : Url) (r : HttpResponse)
    (h : t url 1 = .response r) (hok : r.isOk = true)
    (herrn : r.body.getField "error" = none) :
    (request (t url) 3).result = .ok r.body := by
  have hsucc : attemptOutcome (t url 1) = .success r.body := by
    rw [h]
    exact attemptOutcome_success_of_clean r hok
      (fun e he => by rw [herrn] at he; exact Option.noConfusion he)
  rw [request_first_success (t url) 3 r.body (by omega) hsucc]

/-- C5: each single-entity lookup resolves with `null` — it does not
reject — when the corresponding resource array of a successful response
is empty, and (for the lookups that use optional chaining on the
envelope field) also when the field is absent altogether. -/
theorem single_lookups_null_on_empty :
    (∀ (cfg : EDDClientConfig) (t : Transport) (productId : Int) (r : HttpResponse),
      t (EDDClient.listProductsUrl cfg none (some productId)) 1 = .response r →
      r.isOk = true → r.body.getField "error" = none →
      r.body.getField "products" = some (.arr []) →
      EDDClient.getProduct cfg t productId = .ok (some .null)) ∧
    (∀ (cfg : EDDClientConfig) (t : Transport) (saleId : Int) (r : HttpResponse),
      t (EDDClient.getSaleByIdUrl cfg saleId) 1 = .response r →
      r.isOk = true → r.body.getField "error" = none →
      (r.body.getField "sales" = some (.arr []) ∨ r.body.getField "sales" = none) →
      EDDClient.getSaleById cfg t saleId = .ok (some .null)) ∧
    (∀ (cfg : EDDClientConfig) (t : Transport) (customerId : Int) (r : HttpResponse),
      t (EDDClient.getCustomerByIdUrl cfg customerId) 1 = .response r →
      r.isOk = true → r.body.getField "error" = none →
      (r.body.getField "customers" = some (.arr []) ∨
        r.body.getField "customers" = none) →
      EDDClient.getCustomerById cfg t customerId = .ok (some .null)) ∧
    (∀ (cfg : EDDClientConfig) (t : Transport) (discountId : Int) (r : HttpResponse),
      t (EDDClient.getDiscountUrl cfg discountId) 1 = .response r →
      r.isOk = true → r.body.getField "error" = none →
      (r.body.getField "discounts" = some (.arr []) ∨
        r.body.getField "discounts" = none) →
      EDDClient.getDiscount cfg t discountId = .ok (some .null)) := by
  refine ⟨?_, ?_, ?_, ?_⟩
  · intro cfg t productId r ht hok herrn hprod
    have hres := result_of_clean_response t _ r ht hok herrn
    unfold EDDClient.getProduct EDDClient.listProducts
    simp only [hres, hprod]
    rfl
  · intro cfg t saleId r ht hok herrn hsales
    have hres := result_of_clean_response t _ r ht hok herrn
    unfold EDDClient.getSaleById
    rcases hsales with h | h <;> simp only [hres, h] <;> rfl
  · intro cfg t customerId r ht hok herrn hcust
    have hres := result_of_clean_response t _ r ht hok herrn
    unfold EDDClient.getCustomerById
    rcases hcust with h | h <;> simp only [hres, h] <;> rfl
  · intro cfg t discountId r ht hok herrn hdisc
    have hres := result_of_clean_response t _ r ht hok herrn
    unfold EDDClient.getDiscount
    rcases hdisc with h | h <;> simp only [hres, h] <;> rfl

/-- C5 (witness): against `200 {"products": [], "sales": [],
"customers": [], "discounts": []}` all four lookups resolve with
`null`. -/
theorem single_lookups_null_on_empty_witness :
    EDDClient.getProduct ⟨"https://example.com/edd-api/", "test-key", "test-token"⟩
      (fun _ _ => .response ⟨200, "OK", .obj [("products", .arr []), ("sales", .arr []),
        ("customers", .arr []), ("discounts", .arr [])]⟩) 9999 = .ok (some .null) ∧
    EDDClient.getSaleById ⟨"https://example.com/edd-api/", "test-key", "test-token"⟩
      (fun _ _ => .response ⟨200, "OK", .obj [("products", .arr []), ("sales", .arr []),
        ("customers", .arr []), ("discounts", .arr [])]⟩) 123 = .ok (some .null) ∧
    EDDClient.getCustomerById ⟨"https://example.com/edd-api/", "test-key", "test-token"⟩
      (fun _ _ => .response ⟨200, "OK", .obj [("products", .arr []), ("sales", .arr []),
        ("customers", .arr []), ("discounts", .arr [])]⟩) 42 = .ok (some .null) ∧
    EDDClient.getDiscount ⟨"https://example.com/edd-api/", "test-key", "test-token"⟩
      (fun _ _ => .response ⟨200, "OK", .obj [("products", .arr []), ("sales", .arr []),
        ("customers", .arr []), ("discounts", .arr [])]⟩) 7 = .ok (some .null) :=
  ⟨single_lookups_null_on_empty.1 _ _ 9999
     ⟨200, "OK", .obj [("products", .arr []), ("sales", .arr []),
       ("customers", .arr []), ("discounts", .arr [])]⟩ rfl rfl rfl rfl,
   single_lookups_null_on_empty.2.1 _ _ 123
     ⟨200, "OK", .obj [("products", .arr []), ("sales", .arr []),
       ("customers", .arr []), ("discounts", .arr [])]⟩ rfl rfl rfl (Or.inl rfl),
   single_lookups_null_on_empty.2.2.1 _ _ 42
     ⟨200, "OK", .obj [("products", .arr []), ("sales", .arr []),
       ("customers", .arr []), ("discounts", .arr [])]⟩ rfl rfl rfl (Or.inl rfl),
   single_lookups_null_on_empty.2.2.2 _ _ 7
     ⟨200, "OK", .obj [("products", .arr []), ("sales", .arr []),
       ("customers", .arr []), ("discounts", .arr [])]⟩ rfl rfl rfl (Or.inl rfl)⟩

/-- C10: for a successful response lacking the envelope field, the
guarded list methods (`listSales`, `listCustomers`, `listDiscounts`,
`getDownloadLogs`) resolve with the empty array, whereas `listProducts`
resolves with `undefined` — not the empty array — and `getProduct`'s
`products[0]` access on that `undefined` raises a `TypeError`. -/
theorem envelope_guard_asymmetry :
    (∀ (cfg : EDDClientConfig) (t : Transport) (number page : Option Int)
      (email startdate enddate : Option String) (r : HttpResponse),
      t (EDDClient.listSalesUrl cfg number page email startdate enddate) 1 = .response r →
      r.isOk = true → r.body.getField "error" = none → r.body.getField "sales" = none →
      EDDClient.listSales cfg t number page email startdate enddate =
        .ok (some (.arr []))) ∧
    (∀ (cfg : EDDClientConfig) (t : Transport) (number page : Option Int) (r : HttpResponse),
      t (EDDClient.listCustomersUrl cfg number page) 1 = .response r →
      r.isOk = true → r.body.getField "error" = none → r.body.getField "customers" = none →
      EDDClient.listCustomers cfg t number page = .ok (some (.arr []))) ∧
    (∀ (cfg : EDDClientConfig) (t : Transport) (number : Option Int) (r : HttpResponse),
      t (EDDClient.listDiscountsUrl cfg number) 1 = .response r →
      r.isOk = true → r.body.getField "error" = none → r.body.getField "discounts" = none →
      EDDClient.listDiscounts cfg t number = .ok (some (.arr []))) ∧
    (∀ (cfg : EDDClientConfig) (t : Transport) (number product customer : Option Int)
      (r : HttpResponse),
      t (EDDClient.getDownloadLogsUrl cfg number product customer) 1 = .response r →
      r.isOk = true → r.body.getField "error" = none →
      r.body.getField "download_logs" = none →
      EDDClient.getDownloadLogs cfg t number product customer = .ok (some (.arr []))) ∧
    (∀ (cfg : EDDClientConfig) (t : Transport) (number product : Option Int)
      (r : HttpResponse),
      t (EDDClient.listProductsUrl cfg number product) 1 = .response r →
      r.isOk = true → r.body.getField "error" = none → r.body.getField "products" = none →
      EDDClient.listProducts cfg t number product = .ok none ∧
      MethodResult.ok none ≠ MethodResult.ok (some (.arr []))) ∧
    (∀ (cfg : EDDClientConfig) (t : Transport) (productId : Int) (r : HttpResponse),
      t (EDDClient.listProductsUrl cfg none (some productId)) 1 = .response r →
      r.isOk = true → r.body.getField "error" = none → r.body.getField "products" = none →
      EDDClient.getProduct cfg t productId = .typeError) := by
  refine ⟨?_, ?_, ?_, ?_, ?_, ?_⟩
  · intro cfg t number page email startdate enddate r ht hok herrn hmiss
    have hres := result_of_clean_response t _ r ht hok herrn
    unfold EDDClient.listSales
    simp only [hres, hmiss]
    rfl
  · intro cfg t number page r ht hok herrn hmiss
    have hres := result_of_clean_response t _ r ht hok herrn
    unfold EDDClient.listCustomers
    simp only [hres, hmiss]
    rfl
  · intro cfg t number r ht hok herrn hmiss
    have hres := result_of_clean_response t _ r ht hok herrn
    unfold EDDClient.listDiscounts
    simp only [hres, hmiss]
    rfl
  · intro cfg t number product customer r ht hok herrn hmiss
    have hres := result_of_clean_response t _ r ht hok herrn
    unfold EDDClient.getDownloadLogs
    simp only [hres, hmiss]
    rfl
  · intro cfg t number product r ht hok herrn hmiss
    have hres := result_of_clean_response t _ r ht hok herrn
    constructor
    · unfold EDDClient.listProducts
      simp only [hres, hmiss]
    · simp
  · intro cfg t productId r ht hok herrn hmiss
    have hres := result_of_clean_response t _ r ht hok herrn
    have hlist : EDDClient.listProducts cfg t none (some productId) = .ok none := by
      unfold EDDClient.listProducts
      simp only [hres, hmiss]
    unfold EDDClient.getProduct
    simp only [hlist]

/-- C10 (witness): against `200 {"foo": 1}` (no envelope fields) the
four guarded list methods resolve with `[]`, `listProducts` resolves
with `undefined`, and `getProduct` raises a `TypeError`. -/
theorem envelope_guard_asymmetry_witness :
    EDDClient.listSales ⟨"https://example.com/edd-api/", "test-key", "test-token"⟩
      (fun _ _ => .response ⟨200, "OK", .obj [("foo", .num 1)]⟩)
      (some 10) none none none none = .ok (some (.arr [])) ∧
    EDDClient.listCustomers ⟨"https://example.com/edd-api/", "test-key", "test-token"⟩
      (fun _ _ => .response ⟨200, "OK", .obj [("foo", .num 1)]⟩) none none =
      .ok (some (.arr [])) ∧
    EDDClient.listDiscounts ⟨"https://example.com/edd-api/", "test-key", "test-token"⟩
      (fun _ _ => .response ⟨200, "OK", .obj [("foo", .num 1)]⟩) none =
      .ok (some (.arr [])) ∧
    EDDClient.getDownloadLogs ⟨"https://example.com/edd-api/", "test-key", "test-token"⟩
      (fun _ _ => .response ⟨200, "OK", .obj [("foo", .num 1)]⟩) none none none =
      .ok (some (.arr [])) ∧
    EDDClient.listProducts ⟨"https://example.com/edd-api/", "test-key", "test-token"⟩
      (fun _ _ => .response ⟨200, "OK", .obj [("foo", .num 1)]⟩) none none = .ok none ∧
    EDDClient.getProduct ⟨"https://example.com/edd-api/", "test-key", "test-token"⟩
      (fun _ _ => .response ⟨200, "OK", .obj [("foo", .num 1)]⟩) 42 = .typeError :=
  ⟨envelope_guard_asymmetry.1 _ _ (some 10) none none none none
     ⟨200, "OK", .obj [("foo", .num 1)]⟩ rfl rfl rfl rfl,
   envelope_guard_asymmetry.2.1 _ _ none none
     ⟨200, "OK", .obj [("foo", .num 1)]⟩ rfl rfl rfl rfl,
   envelope_guard_asymmetry.2.2.1 _ _ none
     ⟨200, "OK", .obj [("foo", .num 1)]⟩ rfl rfl rfl rfl,
   envelope_guard_asymmetry.2.2.2.1 _ _ none none none
     ⟨200, "OK", .obj [("foo", .num 1)]⟩ rfl rfl rfl rfl,
   (envelope_guard_asymmetry.2.2.2.2.1 _ _ none none
     ⟨200, "OK", .obj [("foo", .num 1)]⟩ rfl rfl rfl rfl).1,
   envelope_guard_asymmetry.2.2.2.2.2 _ _ 42
     ⟨200, "OK", .obj [("foo", .num 1)]⟩ rfl rfl rfl rfl⟩

/-! ### C6 — date-range stats strip exactly the two meta keys -/

/-- C6: for a successful flat date-range response object,
`getStatsByDateRange` returns the same field list with exactly the
`request_speed` and `totals` entries removed and every other key-value
pair unchanged, in order. -/
theorem statsByDateRange_strips_meta (cfg : EDDClientConfig) (t : Transport)
    (ty : StatType) (startDate endDate : String) (fields : List (String × Json))
    (r : HttpResponse)
    (ht : t (EDDClient.getStatsByDateRangeUrl cfg ty startDate endDate) 1 = .response r)
    (hok : r.isOk = true) (hbody : r.body = .obj fields)
    (herrn : Json.lookupField fields "error" = none) :
    EDDClient.getStatsByDateRange cfg t ty startDate endDate =
      .ok (some (.obj (fields.filter fun p =>
        p.1 != "request_speed" && p.1 != "totals"))) := by
  have herrn' : r.body.getField "error" = none := by
    rw [hbody]
    exact herrn
  have hres := result_of_clean_response t _ r ht hok herrn'
  unfold EDDClient.getStatsByDateRange
  simp only [hres, hbody]
  rfl

/-- C6 (witness): the response
`{"2025-01-01":100, "2025-01-02":150, "2025-01-03":200,
"request_speed":0.01, "totals":450}` yields exactly the three date
entries. -/
theorem statsByDateRange_strips_meta_witness :
    EDDClient.getStatsByDateRange ⟨"https://example.com/edd-api/", "test-key", "test-token"⟩
      (fun _ _ => .response ⟨200, "OK", .obj [("2025-01-01", .num 100),
        ("2025-01-02", .num 150), ("2025-01-03", .num 200),
        ("request_speed", .num 0.01), ("totals", .num 450)]⟩)
      .earnings "20250101" "20250103" =
      .ok (some (.obj [("2025-01-01", .num 100), ("2025-01-02", .num 150),
        ("2025-01-03", .num 200)])) :=
  statsByDateRange_strips_meta _ _ .earnings "20250101" "20250103"
    [("2025-01-01", .num 100), ("2025-01-02", .num 150), ("2025-01-03", .num 200),
     ("request_speed", .num 0.01), ("totals", .num 450)]
    ⟨200, "OK", .obj [("2025-01-01", .num 100), ("2025-01-02", .num 150),
      ("2025-01-03", .num 200), ("request_speed", .num 0.01), ("totals", .num 450)]⟩
    rfl rfl rfl rfl

/-! ### C7 — getStats normalizes both response shapes -/

/-- C7: for the same logical stats data `d`, both known response shapes
— the wrapper `{stats: {<type>: d}}` and the flat
`{<type>: d, request_speed: q}` — make `getStats` resolve with the same
normalized object `{<type>: d}`. -/
theorem getStats_normalizes_shapes (cfg : EDDClientConfig) (t1 t2 : Transport)
    (ty : StatType) (d q : Json) (r1 r2 : HttpResponse)
    (h1 : t1 (EDDClient.getStatsUrl cfg ty) 1 = .response r1) (hok1 : r1.isOk = true)
    (hb1 : r1.body = .obj [("stats", .obj [(ty.param, d)])])
    (h2 : t2 (EDDClient.getStatsUrl cfg ty) 1 = .response r2) (hok2 : r2.isOk = true)
    (hb2 : r2.body = .obj [(ty.param, d), ("request_speed", q)]) :
    EDDClient.getStats cfg t1 ty = .ok (some (.obj [(ty.param, d)])) ∧
    EDDClient.getStats cfg t2 ty = .ok (some (.obj [(ty.param, d)])) := by
  have herr1 : r1.body.getField "error" = none := by
    rw [hb1]
    rfl
  have herr2 : r2.body.getField "error" = none := by
    rw [hb2]
    cases ty <;> rfl
  have hres1 := result_of_clean_response t1 _ r1 h1 hok1 herr1
  have hres2 := result_of_clean_response t2 _ r2 h2 hok2 herr2
  constructor
  · unfold EDDClient.getStats
    simp only [hres1, hb1]
    rfl
  · unfold EDDClient.getStats
    simp only [hres2, hb2]
    cases ty <;> rfl

/-- C7 (witness): the wrapper response
`{"stats": {"earnings": {"current_month": 5000}}}` and the flat response
`{"earnings": {"current_month": 5000}, "request_speed": 1}` both
normalize to `{"earnings": {"current_month": 5000}}`. -/
theorem getStats_normalizes_shapes_witness :
    EDDClient.getStats ⟨"https://example.com/edd-api/", "test-key", "test-token"⟩
      (fun _ _ => .response ⟨200, "OK",
        .obj [("stats", .obj [("earnings", .obj [("current_month", .num 5000)])])]⟩)
      .earnings = .ok (some (.obj [("earnings", .obj [("current_month", .num 5000)])])) ∧
    EDDClient.getStats ⟨"https://example.com/edd-api/", "test-key", "test-token"⟩
      (fun _ _ => .response ⟨200, "OK",
        .obj [("earnings", .obj [("current_month", .num 5000)]), ("request_speed", .num 1)]⟩)
      .earnings = .ok (some (.obj [("earnings", .obj [("current_month", .num 5000)])])) :=
  getStats_normalizes_shapes _ _ _ .earnings (.obj [("current_month", .num 5000)]) (.num 1)
    ⟨200, "OK", .obj [("stats", .obj [("earnings", .obj [("current_month", .num 5000)])])]⟩
    ⟨200, "OK", .obj [("earnings", .obj [("current_month", .num 5000)]),
      ("request_speed", .num 1)]⟩
    rfl rfl rfl rfl rfl rfl

/-! ### C9 — tool handlers for missing parameters and misses -/

/-- C9: the `edd_get_sale` and `edd_get_customer` handlers return their
fixed missing-parameter text when neither identifying argument is
supplied — without touching the transport (the result is the same for
any two transports) and without throwing — and return their distinct
not-found text, rather than raising, whenever the underlying lookup
resolves with `null`. -/
theorem tool_handlers_messages :
    (∀ (cfg : EDDClientConfig) (t t' : Transport),
      eddGetSaleTool cfg t none none =
        .content (.plain "Error: Either saleId or purchaseKey is required") ∧
      eddGetSaleTool cfg t none none = eddGetSaleTool cfg t' none none) ∧
    (∀ (cfg : EDDClientConfig) (t t' : Transport),
      eddGetCustomerTool cfg t none none =
        .content (.plain "Error: Either customerId or email is required") ∧
      eddGetCustomerTool cfg t none none = eddGetCustomerTool cfg t' none none) ∧
    (∀ (cfg : EDDClientConfig) (t : Transport) (saleId : Int), saleId ≠ 0 →
      EDDClient.getSaleById cfg t saleId = .ok (some .null) →
      ∀ purchaseKey, eddGetSaleTool cfg t (some saleId) purchaseKey =
        .content (.plain "Sale not found")) ∧
    (∀ (cfg : EDDClientConfig) (t : Transport) (purchaseKey : String), purchaseKey ≠ "" →
      EDDClient.getSaleByKey cfg t purchaseKey = .ok (some .null) →
      eddGetSaleTool cfg t none (some purchaseKey) =
        .content (.plain "Sale not found")) ∧
    (∀ (cfg : EDDClientConfig) (t : Transport) (customerId : Int), customerId ≠ 0 →
      EDDClient.getCustomerById cfg t customerId = .ok (some .null) →
      ∀ email, eddGetCustomerTool cfg t (some customerId) email =
        .content (.plain "Customer not found")) ∧
    (∀ (cfg : EDDClientConfig) (t : Transport) (email : String), email ≠ "" →
      EDDClient.getCustomerByEmail cfg t email = .ok (some .null) →
      eddGetCustomerTool cfg t none (some email) =
        .content (.plain "Customer not found")) := by
  refine ⟨fun cfg t t' => ⟨rfl, rfl⟩, fun cfg t t' => ⟨rfl, rfl⟩, ?_, ?_, ?_, ?_⟩
  · intro cfg t saleId hne hnull purchaseKey
    have hb : numFalsy (some saleId) = false := by simp [numFalsy, hne]
    simp [eddGetSaleTool, hb, hnull, jsValTruthy, Json.truthy]
  · intro cfg t purchaseKey hne hnull
    have hb : strFalsy (some purchaseKey) = false := by simp [strFalsy, hne]
    simp [eddGetSaleTool, hb, hnull, jsValTruthy, Json.truthy, numFalsy, Option.getD]
  · intro cfg t customerId hne hnull email
    have hb : numFalsy (some customerId) = false := by simp [numFalsy, hne]
    simp [eddGetCustomerTool, hb, hnull, jsValTruthy, Json.truthy]
  · intro cfg t email hne hnull
    have hb : strFalsy (some email) = false := by simp [strFalsy, hne]
    simp [eddGetCustomerTool, hb, hnull, jsValTruthy, Json.truthy, numFalsy, Option.getD]

/-- C9 (witness): with a transport answering
`200 {"sales": [], "customers": []}`, both handlers return their
missing-parameter message when called without arguments and their
not-found message when the lookup comes back empty. -/
theorem tool_handlers_messages_witness :
    eddGetSaleTool ⟨"https://example.com/edd-api/", "test-key", "test-token"⟩
      (fun _ _ => .response ⟨200, "OK", .obj [("sales", .arr []), ("customers", .arr [])]⟩)
      none none = .content (.plain "Error: Either saleId or purchaseKey is required") ∧
    eddGetSaleTool ⟨"https://example.com/edd-api/", "test-key", "test-token"⟩
      (fun _ _ => .response ⟨200, "OK", .obj [("sales", .arr []), ("customers", .arr [])]⟩)
      (some 5) none = .content (.plain "Sale not found") ∧
    eddGetCustomerTool ⟨"https://example.com/edd-api/", "test-key", "test-token"⟩
      (fun _ _ => .response ⟨200, "OK", .obj [("sales", .arr []), ("customers", .arr [])]⟩)
      none none = .content (.plain "Error: Either customerId or email is required") ∧
    eddGetCustomerTool ⟨"https://example.com/edd-api/", "test-key", "test-token"⟩
      (fun _ _ => .response ⟨200, "OK", .obj [("sales", .arr []), ("customers", .arr [])]⟩)
      none (some "buyer@example.com") = .content (.plain "Customer not found") :=
  ⟨(tool_handlers_messages.1 _ _
     (fun _ _ => .response ⟨200, "OK", .obj [("sales", .arr []), ("customers", .arr [])]⟩)).1,
   tool_handlers_messages.2.2.1 ⟨"https://example.com/edd-api/", "test-key", "test-token"⟩
     (fun _ _ => .response ⟨200, "OK", .obj [("sales", .arr []), ("customers", .arr [])]⟩)
     5 (by decide) rfl none,
   (tool_handlers_messages.2.1 _ _
     (fun _ _ => .response ⟨200, "OK", .obj [("sales", .arr []), ("customers", .arr [])]⟩)).1,
   tool_handlers_messages.2.2.2.2.2 ⟨"https://example.com/edd-api/", "test-key", "test-token"⟩
     (fun _ _ => .response ⟨200, "OK", .obj [("sales", .arr []), ("customers", .arr [])]⟩)
     "buyer@example.com" (by decide) rfl⟩
